import Mathlib

/-!
# Verification of the SOP evaluation pipeline

Shallow embedding, in Lean 4, of the core evaluation pipeline of the
`gen3lives_paperevaluate` repository: the lexical heuristic scorer, the
response parser, the dimension evaluators, the orchestrator and the
suggestion generator.

The repository ships several variants of the same script:
  * `src/public/script.js` — LLM-backed evaluators; final score computed as
    `(c*0.4 + n*0.4 + l*0.2) / 100` (no rounding);
  * `src/unnamed/part_001` and `src/unnamed/part_003` — LLM-backed evaluators;
    final score `Math.round(c*0.4 + n*0.4 + l*0.2)`;
  * `src/unnamed/part_002` — purely heuristic evaluators (no outbound call);
    final score `Math.round(c*0.4 + n*0.4 + l*0.2)`.
(`src/unnamed/part_000` is a stylesheet and `src/public/index.html` the page;
neither contains pipeline logic.)

Modelling conventions.
  * Texts are `List Char`.
  * JavaScript numbers are modelled by exact arithmetic where the IEEE-754
    binary64 evaluation provably agrees with it, and by an explicit binary64
    embedding where it does not.  Quantities evaluated by the kernel are kept
    in `ℕ`, using the exact values of the JS float expressions
    (`natCeilDiv`/`natRoundDiv` below); the bridging theorems
    `natCeilDiv_cast` and `natRoundDiv_cast` prove these equal to the
    rational ceiling/half-up-rounding formulas written in the source.  The
    evaluators' rounding formulas are float-exact on their reachable inputs,
    and the `scoreByKeywords` arithmetic is float-exact on every keyword list
    of the repository (at most 6 keywords; `fpScoreVal_small`) — but NOT on
    arbitrarily large keyword sets, so `scoreByKeywords` has a second,
    bit-accurate binary64 embedding `scoreByKeywordsFP`, against which the
    universally quantified claim C5 is settled.
  * The one non-finite float in the pipeline — `0/0 = NaN` inside the
    heuristic language scorer when the sentence list is empty — is modelled
    by an explicit zero-denominator branch: in JS every `NaN <= t` comparison
    is false, so the threshold chain falls through to its final `else`.
  * Outbound HTTP calls (`fetch` plus extraction of
    `data.choices[0].message.content`) are fallible; each call is modelled by
    an `Option (List Char)` argument: `some raw` is a run in which the call
    succeeded with content string `raw`; `none` is a run in which any step of
    the call threw (network failure, non-2xx, malformed or empty payload),
    which the surrounding `try/catch` turns into the fallback result.
-/

namespace PaperEval

/-! ## Regular-expression primitives

The source uses four regex shapes: `\b<word>\b` with the `i` flag
(`scoreByKeywords`, vague-language and absolute-statement red flags), a plain
case-insensitive alternation with no `\b` (the cliché red flag),
`Score:\s*(\d+)\/100` and `Feedback:\s*([\s\S]*?)(?=Score:|$)` (both
case-sensitive, in the response parser). -/

/-- JS `\w` character class `[A-Za-z0-9_]` (ASCII), the class underlying the
`\b` word-boundary assertion. -/
def isWordChar (c : Char) : Bool :=
  c.isAlphanum || c = '_'

/-- Word-character test on an optional character; `none` (a position outside
the string) counts as a non-word character, exactly as `\b` treats the
positions before the first and after the last character. -/
def isWordCharOpt : Option Char → Bool
  | none => false
  | some c => isWordChar c

/-- Case-insensitive (`i` flag, ASCII folding) test that `pat` is a prefix of
`text`. -/
def startsWithCI : List Char → List Char → Bool
  | [], _ => true
  | _ :: _, [] => false
  | p :: ps, t :: ts => (p.toLower == t.toLower) && startsWithCI ps ts

/-- `\b word \b` (case-insensitive) tested at the current position; `prev` is
the character immediately before the position (`none` at the start of the
string): a word boundary, then `word`, then a word boundary. -/
def wordMatchHere (word : List Char) (prev : Option Char) (text : List Char) : Bool :=
  (isWordCharOpt prev != isWordCharOpt text.head?) &&
  startsWithCI word text &&
  (isWordCharOpt ((text.drop (word.length - 1)).head?) !=
     isWordCharOpt ((text.drop word.length).head?))

/-- Scan of the whole string for `\b word \b` (case-insensitive), carrying the
previous character for the boundary test. -/
def wordSearchFrom (word : List Char) (prev : Option Char) : List Char → Bool
  | [] => wordMatchHere word prev []
  | c :: ts => wordMatchHere word prev (c :: ts) || wordSearchFrom word (some c) ts

/-- `new RegExp('\\b' + word + '\\b', 'i').test(text)`. -/
def testWholeWord (word text : List Char) : Bool :=
  wordSearchFrom word none text

/-- Case-insensitive substring test: a regex of plain characters with the `i`
flag and no anchors (the shape of the cliché pattern in `needsModification`,
which has no `\b`). -/
def containsCI (pat : List Char) : List Char → Bool
  | [] => startsWithCI pat []
  | c :: ts => startsWithCI pat (c :: ts) || containsCI pat ts

/-- Case-sensitive substring test (used to state properties of generated
prompt strings). -/
def containsStr (pat : List Char) : List Char → Bool
  | [] => pat.isPrefixOf ([] : List Char)
  | c :: ts => pat.isPrefixOf (c :: ts) || containsStr pat ts

/-! ## Exact arithmetic for the JS float expressions -/

/-- Exact value of `Math.ceil(a / b)` for naturals with `b ≠ 0`:
`⌈a/b⌉ = (a + b - 1) / b` (see `natCeilDiv_cast`). -/
def natCeilDiv (a b : ℕ) : ℕ :=
  (a + b - 1) / b

/-- Exact value of `Math.round(a / b)` (round half-up) for naturals with
`b ≠ 0`: `⌊a/b + 1/2⌋ = (2a + b) / (2b)` (see `natRoundDiv_cast`). -/
def natRoundDiv (a b : ℕ) : ℕ :=
  (2 * a + b) / (2 * b)

theorem natCeilDiv_cast (a b : ℕ) (hb : b ≠ 0) :
    (natCeilDiv a b : ℤ) = ⌈(a : ℚ) / (b : ℚ)⌉ := by
  have hb0 : 0 < b := Nat.pos_of_ne_zero hb
  have hbQ : (0 : ℚ) < (b : ℚ) := by exact_mod_cast hb0
  have key : a ≤ natCeilDiv a b * b ∧ natCeilDiv a b * b < a + b := by
    unfold natCeilDiv
    have h1 : b * ((a + b - 1) / b) + (a + b - 1) % b = a + b - 1 := Nat.div_add_mod _ _
    have hmod : (a + b - 1) % b < b := Nat.mod_lt _ hb0
    rw [Nat.mul_comm]
    generalize hm : b * ((a + b - 1) / b) = m at h1
    omega
  symm
  rw [Int.ceil_eq_iff]
  constructor
  · rw [show ((natCeilDiv a b : ℤ) : ℚ) - 1 = ((natCeilDiv a b : ℚ)) - 1 by push_cast; ring,
      sub_lt_iff_lt_add, div_add' _ _ _ (ne_of_gt hbQ), lt_div_iff₀ hbQ]
    have h2 : ((natCeilDiv a b : ℕ) : ℚ) * b < a + b := by exact_mod_cast key.2
    linarith
  · rw [div_le_iff₀ hbQ]
    push_cast
    exact_mod_cast key.1

/-- The number of keywords of `keywords` matching `text` as whole words,
case-insensitively:

```js
const matches = keywords.filter(word =>
    new RegExp('\\b' + word + '\\b', 'i').test(text)
).length;
``` -/
def matchCount (text : List Char) (keywords : List (List Char)) : ℕ :=
  (keywords.filter (fun word => testWholeWord word text)).length

/-- `scoreByKeywords(text, keywords)`:

```js
return Math.min(5, Math.ceil(matches * (5 / Math.ceil(keywords.length / 2))));
```

This is the EXACT-ARITHMETIC reading of the line: with
`half := Math.ceil(keywords.length / 2) = natCeilDiv keywords.length 2`
(float-exact), the inner value `matches * (5 / half)` has exact ceiling
`⌈5 * matches / half⌉ = natCeilDiv (5 * matches) half`.  The source evaluates
the expression in IEEE-754 binary64; that evaluation is embedded separately
as `scoreByKeywordsFP` below.  The two agree on every keyword list of at
most 6 keywords — every call site of the repository passes 4 to 6 keywords —
by `scoreByKeywordsFP_eq_exact_of_small`; they first diverge at a
909-keyword list with 273 matches, where the double rounding of
`273 * (5/455)` lands just above 3 (see the C5 counterexample).  For an
empty keyword list JS produces `NaN`; no claim and no caller in the
repository passes an empty list. -/
def scoreByKeywords (text : List Char) (keywords : List (List Char)) : ℕ :=
  min 5 (natCeilDiv (5 * matchCount text keywords) (natCeilDiv keywords.length 2))

theorem scoreByKeywords_le_five (text : List Char) (keywords : List (List Char)) :
    scoreByKeywords text keywords ≤ 5 :=
  min_le_left _ _

/-- Counting a filter is monotone under pointwise implication of the
predicates. -/
theorem length_filter_mono {α : Type} (l : List α) (p q : α → Bool)
    (h : ∀ a ∈ l, p a = true → q a = true) :
    (l.filter p).length ≤ (l.filter q).length := by
  induction l with
  | nil => simp
  | cons a l ih =>
    have ih' := ih (fun x hx => h x (List.mem_cons_of_mem a hx))
    have ha := h a (List.mem_cons_self a l)
    by_cases hp : p a = true
    · rw [List.filter_cons_of_pos hp, List.filter_cons_of_pos (ha hp)]
      simpa using ih'
    · rw [List.filter_cons_of_neg (by simpa using hp)]
      by_cases hq : q a = true
      · rw [List.filter_cons_of_pos hq]
        exact le_trans ih' (by simp)
      · rw [List.filter_cons_of_neg (by simpa using hq)]
        exact ih'

/-! ## The IEEE-754 binary64 evaluation of `scoreByKeywords`

The source computes `Math.ceil(matches * (5 / Math.ceil(keywords.length /
2)))` in doubles.  `Math.ceil(keywords.length / 2)` is float-exact (a JS
array length is below `2^32`, and halving is exact), but `5 / half` and
`matches * d` are correctly ROUNDED, and for very large keyword sets the
product can round to just above an integer the exact product hits exactly.
The embedding below models a positive binary64 value by the natural number
`v` standing for `v / 2^120` — exact for every double arising here, since
all values lie in `(2^-68, 2^53)` (with `half ≤ 2^31`, `5/half > 2^-30`, and
the product is at most about 10): no overflow, underflow or `NaN` can occur
on a constructible input with a non-empty keyword list. -/

/-- Largest `k ≤ fuel` with `2^k ≤ n` (0 when `n < 2`): bounded descending
search, structural in `fuel`; every use takes `fuel = 250`, enough for every
value below `2^100` — far above any value arising from the pipeline. -/
def log2Fuel : ℕ → ℕ → ℕ
  | 0, _ => 0
  | f + 1, n => if 2 ^ (f + 1) ≤ n then f + 1 else log2Fuel f n

/-- Round-to-nearest, ties to even, of the positive rational `a / b`, scaled
by `2^120`: the IEEE-754 binary64 rounding for values in `(2^-68, 2^53)`
(the domain justified above).  `s' - 150 = ⌊log₂(a/b)⌋` locates the binade,
`2^(s' - 150 - 52)` is the ulp there, and the scaled significand is the
nearest integer to `(a/b) / ulp`, ties to the even significand. -/
def fpRoundRatScaled (a b : ℕ) : ℕ :=
  if a = 0 ∨ b = 0 then 0
  else
    let s' := log2Fuel 250 (a * 2 ^ 150 / b)
    let A := a * 2 ^ (202 - s')
    let n0 := A / b
    let r := A % b
    let n : ℕ :=
      if 2 * r < b then n0
      else if b < 2 * r then n0 + 1
      else if n0 % 2 = 0 then n0 else n0 + 1
    n * 2 ^ (s' - 82)

/-- `Math.min(5, Math.ceil(m * (5 / Math.ceil(len / 2))))` evaluated in
binary64, as a function of the match count `m` and the keyword count `len`:
`half` is float-exact, `d = fl(5 / half)`, `p = fl(m * d)` (the exact
product of `m` and the double `d = v/2^120` is `(m*v)/2^120`, then rounded),
and `Math.ceil`/`Math.min` on the resulting doubles are exact. -/
def fpScoreVal (m len : ℕ) : ℕ :=
  let half := natCeilDiv len 2
  let d := fpRoundRatScaled 5 half
  let p := fpRoundRatScaled (m * d) (2 ^ 120)
  min 5 (natCeilDiv p (2 ^ 120))

/-- `scoreByKeywords(text, keywords)` under the IEEE-754 binary64 evaluation
of its arithmetic (same match counting as `scoreByKeywords`; for an empty
keyword list JS produces `NaN`, which no claim and no repository call site
reaches). -/
def scoreByKeywordsFP (text : List Char) (keywords : List (List Char)) : ℕ :=
  fpScoreVal (matchCount text keywords) keywords.length

theorem fpScoreVal_le_five (m len : ℕ) : fpScoreVal m len ≤ 5 := by
  unfold fpScoreVal
  exact min_le_left _ _

set_option maxRecDepth 40000 in
/-- On every keyword count up to 6 — which covers all 11 keyword lists of
the repository, each of 4 to 6 keywords — the binary64 evaluation agrees
with the exact arithmetic, checked case by case. -/
theorem fpScoreVal_small (m len : ℕ) (h1 : 1 ≤ len) (h6 : len ≤ 6) (hm : m ≤ len) :
    fpScoreVal m len = min 5 (natCeilDiv (5 * m) (natCeilDiv len 2)) := by
  interval_cases len <;> interval_cases m <;> decide

/-- The binary64 and exact evaluations of `scoreByKeywords` agree on every
keyword list of at most 6 keywords. -/
theorem scoreByKeywordsFP_eq_exact_of_small (text : List Char)
    (keywords : List (List Char)) (h1 : keywords ≠ []) (h6 : keywords.length ≤ 6) :
    scoreByKeywordsFP text keywords = scoreByKeywords text keywords := by
  have hm : matchCount text keywords ≤ keywords.length :=
    List.length_filter_le _ _
  have h1' : 1 ≤ keywords.length := by
    cases keywords with
    | nil => exact absurd rfl h1
    | cons a l => simp
  exact fpScoreVal_small _ _ h1' h6 hm

/-! ## The response parser (`parseEvaluationResponse`)

Identical in `src/public/script.js` (lines 519-534) and `src/unnamed/part_003`:

```js
const scoreMatch = response.match(/Score:\s*(\d+)\/100/);
const score = scoreMatch ? parseInt(scoreMatch[1]) : 0;
const feedbackMatch = response.match(/Feedback:\s*([\s\S]*?)(?=Score:|$)/);
const feedback = feedbackMatch ? feedbackMatch[1].trim() : 'No feedback available';
return { score, feedback };
```

The surrounding `try/catch` is dead for string inputs: `match`, `parseInt`
and `trim` cannot throw, so the embedding is the `try` branch and is total by
construction. -/

/-- JS `\s` restricted to the ASCII whitespace characters (space, tab, line
feed, carriage return, vertical tab, form feed); the Unicode additions of
`\s` never occur in the strings of this development. -/
def isJsSpace (c : Char) : Bool :=
  c = ' ' || c = '\t' || c = '\n' || c = '\r' || c = '\x0b' || c = '\x0c'

/-- JS `String.prototype.trim()`: strip leading and trailing whitespace. -/
def trimJs (s : List Char) : List Char :=
  ((s.dropWhile isJsSpace).reverse.dropWhile isJsSpace).reverse

/-- `parseInt` on a non-empty run of decimal digits. -/
def natOfDigits (ds : List Char) : ℕ :=
  ds.foldl (fun acc c => 10 * acc + (c.toNat - '0'.toNat)) 0

/-- The regex `Score:\s*(\d+)\/100` tested at the current position: the
literal `Score:`, greedy whitespace (backtracking cannot help, `\s` and `\d`
being disjoint), a non-empty greedy digit run — the capture — then the
literal `/100`.  Returns the captured number when the position matches. -/
def scoreHere (t : List Char) : Option ℕ :=
  if ("Score:".toList).isPrefixOf t then
    let afterSpace := (t.drop 6).dropWhile isJsSpace
    let digits := afterSpace.takeWhile Char.isDigit
    if digits.isEmpty then none
    else if ("/100".toList).isPrefixOf (afterSpace.drop digits.length) then
      some (natOfDigits digits)
    else none
  else none

/-- `response.match(/Score:\s*(\d+)\/100/)`: the regex engine tries the
pattern at each position from the left; the first success yields the
capture. -/
def findScore : List Char → Option ℕ
  | [] => none
  | c :: ts =>
    match scoreHere (c :: ts) with
    | some n => some n
    | none => findScore ts

/-- The suffix following the first (case-sensitive) occurrence of `marker`,
or `none` when `marker` does not occur. -/
def afterFirst (marker : List Char) : List Char → Option (List Char)
  | [] => if marker.isEmpty then some [] else none
  | c :: ts =>
    if marker.isPrefixOf (c :: ts) then some ((c :: ts).drop marker.length)
    else afterFirst marker ts

/-- The prefix of `t` up to (excluding) the first occurrence of `marker`,
or all of `t` when `marker` does not occur — the text matched by a lazy
`[\s\S]*?` bounded by the lookahead `(?=marker|$)`. -/
def upToMarker (marker : List Char) : List Char → List Char
  | [] => []
  | c :: ts => if marker.isPrefixOf (c :: ts) then [] else c :: upToMarker marker ts

/-- The `{score, feedback}` pair returned by the parser. -/
structure ParsedEval where
  score : ℕ
  feedback : List Char
deriving DecidableEq

/-- `parseEvaluationResponse(response)` of `script.js`/`part_003`.  The
feedback regex `Feedback:\s*([\s\S]*?)(?=Score:|$)` matches at the first
occurrence of `Feedback:` (the lazy group can always extend to the end of
the string, where `$` holds), captures from after the greedy whitespace run
up to the next `Score:` or the end, and the code then trims the capture. -/
def parseEvaluationResponse (response : List Char) : ParsedEval :=
  { score := (findScore response).getD 0
    feedback :=
      match afterFirst ("Feedback:".toList) response with
      | none => "No feedback available".toList
      | some rest => trimJs (upToMarker ("Score:".toList) (rest.dropWhile isJsSpace)) }

/-! ## Sentence segmentation and the red flags -/

/-- The character class `[.!?]` of the sentence-splitting regex. -/
def isSentenceSep (c : Char) : Bool :=
  c = '.' || c = '!' || c = '?'

/-- Worker for `text.split(/[.!?]+/)`: `cur` is the reversed piece being
accumulated and `inSep` records that the scan is inside a separator run whose
piece boundary was already emitted (the `+` makes a run a single separator,
so no empty piece arises between adjacent separator characters, while leading
and trailing runs do produce empty pieces, as in JS). -/
def splitSepsAux (cur : List Char) (inSep : Bool) : List Char → List (List Char)
  | [] => [cur.reverse]
  | c :: rest =>
    if isSentenceSep c then
      if inSep then splitSepsAux [] true rest
      else cur.reverse :: splitSepsAux [] true rest
    else splitSepsAux (c :: cur) false rest

/-- `text.split(/[.!?]+/)`. -/
def splitSentenceSeps (text : List Char) : List (List Char) :=
  splitSepsAux [] false text

/-- `text.split(/[.!?]+/).filter(s => s.trim())` (from `evaluateText` in
`part_002`): the pieces that are non-empty after trimming; the filter keeps
the untrimmed piece. -/
def sentencesOf (text : List Char) : List (List Char) :=
  (splitSentenceSeps text).filter (fun s => !(trimJs s).isEmpty)

/-- `/\b(very|really|things|stuff)\b/i.test(sentence)` — for a `.test`, the
anchored alternation holds exactly when some alternative matches as a whole
word. -/
def vagueLanguage (sentence : List Char) : Bool :=
  (["very", "really", "things", "stuff"].map String.toList).any
    (fun w => testWholeWord w sentence)

/-- `/(am|is|are|was|were) (passionate|interested|excited) (about|in)/i.test(sentence)`
— no `\b` anchors: a plain case-insensitive substring of the form
`verb ⬝ space ⬝ adjective ⬝ space ⬝ preposition`. -/
def clichePhrase (sentence : List Char) : Bool :=
  (["am", "is", "are", "was", "were"].map String.toList).any fun verb =>
    (["passionate", "interested", "excited"].map String.toList).any fun adj =>
      (["about", "in"].map String.toList).any fun prep =>
        containsCI (verb ++ ' ' :: adj ++ ' ' :: prep) sentence

/-- `/\b(always|never|all|none|every|everyone)\b/i.test(sentence)`. -/
def absoluteStatement (sentence : List Char) : Bool :=
  (["always", "never", "all", "none", "every", "everyone"].map String.toList).any
    (fun w => testWholeWord w sentence)

/-- The `redFlags` array of `needsModification` (identical in `script.js`,
`part_002` and `part_003`):

```js
const redFlags = [
    sentence.length > 50,  // Too long
    sentence.length < 10,  // Too short
    /\b(very|really|things|stuff)\b/i.test(sentence),
    /(am|is|are|was|were) (passionate|interested|excited) (about|in)/i.test(sentence),
    /\b(always|never|all|none|every|everyone)\b/i.test(sentence)
];
``` -/
def redFlags (sentence : List Char) : List Bool :=
  [decide (sentence.length > 50),
   decide (sentence.length < 10),
   vagueLanguage sentence,
   clichePhrase sentence,
   absoluteStatement sentence]

/-- `return redFlags.filter(flag => flag).length >= 2;` -/
def needsModification (sentence : List Char) : Bool :=
  decide (2 ≤ ((redFlags sentence).filter id).length)

/-! ## Criterion helpers

Identical in `script.js`, `part_002` and `part_003`. -/

/-- `hasPersonalBackground(text)`. -/
def hasPersonalBackground (text : List Char) : ℕ :=
  scoreByKeywords text
    (["I", "my", "background", "experience", "grew up", "family"].map String.toList)

/-- `hasEducationalExperience(text)`. -/
def hasEducationalExperience (text : List Char) : ℕ :=
  scoreByKeywords text
    (["study", "university", "degree", "major", "course", "project"].map String.toList)

/-- `hasCareerGoals(text)`. -/
def hasCareerGoals (text : List Char) : ℕ :=
  scoreByKeywords text
    (["goal", "career", "future", "aspire", "aim", "plan"].map String.toList)

/-- `hasSchoolChoice(text)`. -/
def hasSchoolChoice (text : List Char) : ℕ :=
  scoreByKeywords text
    (["program", "school", "university", "faculty", "research", "choose"].map String.toList)

/-- `hasUniqueness(text)`. -/
def hasUniqueness (text : List Char) : ℕ :=
  scoreByKeywords text
    (["unique", "different", "special", "distinguish", "stand out"].map String.toList)

/-- `hasSpecificExamples(text)`. -/
def hasSpecificExamples (text : List Char) : ℕ :=
  scoreByKeywords text
    (["example", "instance", "specifically", "particular", "case"].map String.toList)

/-- `text.split('\n')[0]`: the prefix of `text` before the first newline. -/
def firstParagraph (text : List Char) : List Char :=
  text.takeWhile (fun c => c ≠ '\n')

/-- `text.split('\n').slice(-1)[0]`: the suffix of `text` after the last
newline (the whole text when there is none; the empty string when the text
ends in a newline, as in JS). -/
def lastParagraph (text : List Char) : List Char :=
  (text.reverse.takeWhile (fun c => c ≠ '\n')).reverse

/-- `hasStrongOpening(text)`: scored against the first paragraph only. -/
def hasStrongOpening (text : List Char) : ℕ :=
  scoreByKeywords (firstParagraph text)
    (["question", "quote", "anecdote", "statistic"].map String.toList)

/-- `hasCoherentStructure(text)`. -/
def hasCoherentStructure (text : List Char) : ℕ :=
  scoreByKeywords text
    (["however", "therefore", "moreover", "consequently", "additionally"].map String.toList)

/-- `hasConflictResolution(text)`. -/
def hasConflictResolution (text : List Char) : ℕ :=
  scoreByKeywords text
    (["challenge", "problem", "obstacle", "overcome", "solve", "resolution"].map String.toList)

/-- `hasNarrativeDepth(text)`. -/
def hasNarrativeDepth (text : List Char) : ℕ :=
  scoreByKeywords text
    (["because", "reason", "impact", "result", "learn", "reflect"].map String.toList)

/-- `hasStrongClosing(text)`: scored against the last paragraph only. -/
def hasStrongClosing (text : List Char) : ℕ :=
  scoreByKeywords (lastParagraph text)
    (["conclusion", "therefore", "finally", "future", "contribute"].map String.toList)

/-! ## `src/unnamed/part_002`: the heuristic evaluators and orchestrator -/

namespace Part002

/-- `part_002`'s `evaluateContent(text)`:

```js
const criteria = [hasPersonalBackground(text), ..., hasSpecificExamples(text)];
const totalPoints = criteria.reduce((sum, score) => sum + score, 0);
return Math.round((totalPoints / (criteria.length * 5)) * 100);
```

`(totalPoints / 30) * 100 = (totalPoints * 100) / 30` exactly. -/
def evaluateContent (text : List Char) : ℕ :=
  let criteria : List ℕ :=
    [hasPersonalBackground text,
     hasEducationalExperience text,
     hasCareerGoals text,
     hasSchoolChoice text,
     hasUniqueness text,
     hasSpecificExamples text]
  let totalPoints := criteria.foldl (· + ·) 0
  natRoundDiv (totalPoints * 100) (criteria.length * 5)

/-- `part_002`'s `evaluateNarrative(text)` (same shape, 5 criteria). -/
def evaluateNarrative (text : List Char) : ℕ :=
  let criteria : List ℕ :=
    [hasStrongOpening text,
     hasCoherentStructure text,
     hasConflictResolution text,
     hasNarrativeDepth text,
     hasStrongClosing text]
  let totalPoints := criteria.foldl (· + ·) 0
  natRoundDiv (totalPoints * 100) (criteria.length * 5)

/-- `part_002`'s `evaluateLanguage(sentences)`:

```js
const modificationNeeded = sentences.filter(s => needsModification(s)).length;
const modificationPercentage = (modificationNeeded / sentences.length) * 100;
let score;
if (modificationPercentage <= 5) score = 5;
else if (modificationPercentage <= 10) score = 4;
else if (modificationPercentage <= 20) score = 3;
else if (modificationPercentage <= 30) score = 2;
else score = 1;
return Math.round((score / 5) * 100);
```

For an empty list the percentage is `0/0 = NaN`; every `NaN <= t` is false,
so the chain falls through to `score = 1` — the first branch below.  For a
non-empty list, `(needed / n) * 100 ≤ t ↔ 100 * needed ≤ t * n` after
clearing the positive denominator `n`. -/
def evaluateLanguage (sentences : List (List Char)) : ℕ :=
  let modificationNeeded := (sentences.filter needsModification).length
  let n := sentences.length
  let score : ℕ :=
    if n = 0 then 1
    else if 100 * modificationNeeded ≤ 5 * n then 5
    else if 100 * modificationNeeded ≤ 10 * n then 4
    else if 100 * modificationNeeded ≤ 20 * n then 3
    else if 100 * modificationNeeded ≤ 30 * n then 2
    else 1
  natRoundDiv (score * 100) 5

/-- The result object of `part_002`'s `evaluateText` (plain numbers, no
feedback strings in this variant). -/
structure HeuristicResults where
  content : ℕ
  narrative : ℕ
  language : ℕ
  final_score : ℕ
deriving DecidableEq

/-- `part_002`'s `evaluateText(text)`:

```js
const sentences = text.split(/[.!?]+/).filter(s => s.trim());
const contentScore = evaluateContent(text);
const narrativeScore = evaluateNarrative(text);
const languageScore = evaluateLanguage(sentences);
const finalScore = Math.round(
    contentScore * WEIGHTS.content +
    narrativeScore * WEIGHTS.narrative +
    languageScore * WEIGHTS.language);
```

`c*0.4 + n*0.4 + l*0.2 = (4c + 4n + 2l) / 10` exactly (see
`weighted_round_cast` below for the half-up-rounded rational form). -/
def evaluateText (text : List Char) : HeuristicResults :=
  let sentences := sentencesOf text
  let contentScore := evaluateContent text
  let narrativeScore := evaluateNarrative text
  let languageScore := evaluateLanguage sentences
  let finalScore :=
    natRoundDiv (4 * contentScore + 4 * narrativeScore + 2 * languageScore) 10
  ⟨contentScore, narrativeScore, languageScore, finalScore⟩

end Part002

/-! ## `src/public/script.js`: LLM-backed evaluators, orchestrator,
suggestion generator -/

namespace ScriptJs

/-- The process-wide `WEIGHTS` constant (identical in all variants):
`{ content: 0.4, narrative: 0.4, language: 0.2 }`. -/
structure WeightTable where
  content : ℚ
  narrative : ℚ
  language : ℚ

def WEIGHTS : WeightTable :=
  { content := 0.4, narrative := 0.4, language := 0.2 }

/-- `script.js`'s `evaluateContent(text)`: sends the content rubric prompt to
the generation capability and parses the reply; the `try/catch` converts any
failure of the call (modelled by `none`) into the fallback result.  The
prompt string itself leaves the system unparsed (black-box capability), so
only the call's outcome appears here. -/
def evaluateContent (response : Option (List Char)) : ParsedEval :=
  match response with
  | some raw => parseEvaluationResponse raw
  | none => ⟨0, "Error evaluating content. Please try again.".toList⟩

/-- `script.js`'s `evaluateNarrative(text)`, same shape. -/
def evaluateNarrative (response : Option (List Char)) : ParsedEval :=
  match response with
  | some raw => parseEvaluationResponse raw
  | none => ⟨0, "Error evaluating narrative. Please try again.".toList⟩

/-- `script.js`'s `evaluateLanguage(text)`, same shape. -/
def evaluateLanguage (response : Option (List Char)) : ParsedEval :=
  match response with
  | some raw => parseEvaluationResponse raw
  | none => ⟨0, "Error evaluating language. Please try again.".toList⟩

/-- The `results` object at the point where `script.js` passes it to
`generateModificationSuggestions` (before `suggestions` is attached). -/
structure Results where
  content : ParsedEval
  narrative : ParsedEval
  language : ParsedEval
  final_score : ℚ

/-- JS template interpolation `${v}` of a plain object (a `DimensionResult`
record is not a primitive): `Object.prototype.toString` yields the literal
`[object Object]`. -/
def jsTemplateOfResult (r : ParsedEval) : List Char :=
  let _ := r
  "[object Object]".toList

/-- JS template interpolation `${v}` of `undefined` — the value of the absent
properties `scores.contentFeedback`, `scores.narrativeFeedback`,
`scores.languageFeedback` on the `results` object, which only has fields
`content`, `narrative`, `language`, `final_score`. -/
def jsTemplateOfAbsent : List Char :=
  "undefined".toList

/-- The prompt built by `generateModificationSuggestions(text, scores)`:

```js
const prompt = `As an expert SOP evaluator, ... aspects:

1. Content (${scores.content}/100):
${scores.contentFeedback}

2. Narrative Structure (${scores.narrative}/100):
${scores.narrativeFeedback}

3. Language Usage (${scores.language}/100):
${scores.languageFeedback}

Please analyze the following SOP ... improvement:

${text}

Format your response as a bulleted list of specific suggestions, ...`;
```

`scores.content` is the content `DimensionResult` object, so each `${...}`
interpolates to `[object Object]`; each `scores.<dim>Feedback` property does
not exist on the `results` object, so each interpolates to `undefined`. -/
def suggestionPrompt (text : List Char) (scores : Results) : List Char :=
  ("As an expert SOP evaluator, please provide specific suggestions to improve this Statement of Purpose. Focus on the following aspects:\n\n1. Content (").toList
  ++ jsTemplateOfResult scores.content ++ ("/100):\n").toList ++ jsTemplateOfAbsent
  ++ ("\n\n2. Narrative Structure (").toList
  ++ jsTemplateOfResult scores.narrative ++ ("/100):\n").toList ++ jsTemplateOfAbsent
  ++ ("\n\n3. Language Usage (").toList
  ++ jsTemplateOfResult scores.language ++ ("/100):\n").toList ++ jsTemplateOfAbsent
  ++ ("\n\nPlease analyze the following SOP and provide clear, actionable suggestions for improvement:\n\n").toList
  ++ text
  ++ ("\n\nFormat your response as a bulleted list of specific suggestions, focusing on the most critical improvements needed.").toList

/-- `generateModificationSuggestions(text, scores)`: builds the prompt, makes
one call to the generation capability (one `fetch`, with a system-role
persona message and the user-role prompt) and returns the reply content
verbatim; any failure — network error, or the explicit
`if (!data.choices?.[0]?.message?.content) throw ...` guard on a malformed or
empty payload — is caught and degraded to the fixed fallback string. -/
def generateModificationSuggestions (text : List Char) (scores : Results)
    (response : Option (List Char)) : List Char :=
  let _ := suggestionPrompt text scores
  match response with
  | some content => content
  | none => "Unable to generate suggestions at this time.".toList

/-- The terminal result object of `script.js`'s `evaluateText`. -/
structure EvaluationResults extends Results where
  suggestions : List Char

/-- `script.js`'s `evaluateText(text)` (lines 144-200): runs the three
dimension evaluators, then

```js
const finalScore = (
    contentResult.score * WEIGHTS.content +
    narrativeResult.score * WEIGHTS.narrative +
    languageResult.score * WEIGHTS.language
) / 100;
```

— note the division by 100 and the absence of `Math.round` — then requests
suggestions and attaches them.  The four `Option` arguments are the outcomes
of the four outbound calls of one run. -/
def evaluateText (text : List Char)
    (contentResponse narrativeResponse languageResponse suggestionResponse :
      Option (List Char)) : EvaluationResults :=
  let contentResult := evaluateContent contentResponse
  let narrativeResult := evaluateNarrative narrativeResponse
  let languageResult := evaluateLanguage languageResponse
  let finalScore : ℚ :=
    ((contentResult.score : ℚ) * WEIGHTS.content +
     (narrativeResult.score : ℚ) * WEIGHTS.narrative +
     (languageResult.score : ℚ) * WEIGHTS.language) / 100
  let results : Results := ⟨contentResult, narrativeResult, languageResult, finalScore⟩
  let suggestions := generateModificationSuggestions text results suggestionResponse
  { results with suggestions := suggestions }

end ScriptJs

/-! ## `src/unnamed/part_003`: the LLM-backed variant that rounds

Same evaluators and parser as `script.js` (`part_001` differs only in its
prompts and parser details); its `evaluateText` computes

```js
const finalScore = Math.round(
    contentResult.score * WEIGHTS.content +
    narrativeResult.score * WEIGHTS.narrative +
    languageResult.score * WEIGHTS.language);
```

— the rounded weighted sum, with no division by 100. -/

namespace Part003

/-- The result object of `part_003`'s `evaluateText`. -/
structure Results where
  content : ParsedEval
  narrative : ParsedEval
  language : ParsedEval
  final_score : ℕ
deriving DecidableEq

/-- `part_003`'s `evaluateText(text)`; its three dimension evaluators are
identical to those of `script.js` (same prompts, parser and fallbacks), so
they are shared.  `Math.round(c*0.4 + n*0.4 + l*0.2)` is the exact value
`natRoundDiv (4c + 4n + 2l) 10` (see `weighted_round_cast`). -/
def evaluateText
    (contentResponse narrativeResponse languageResponse : Option (List Char)) :
    Results :=
  let contentResult := ScriptJs.evaluateContent contentResponse
  let narrativeResult := ScriptJs.evaluateNarrative narrativeResponse
  let languageResult := ScriptJs.evaluateLanguage languageResponse
  let finalScore :=
    natRoundDiv
      (4 * contentResult.score + 4 * narrativeResult.score + 2 * languageResult.score) 10
  ⟨contentResult, narrativeResult, languageResult, finalScore⟩

end Part003

/-- The number of red flags of `sentence` that hold, written as the
specification counts them: one independent summand per flag. -/
def redFlagCount (sentence : List Char) : ℕ :=
  (if sentence.length > 50 then 1 else 0) +
  (if sentence.length < 10 then 1 else 0) +
  (if vagueLanguage sentence then 1 else 0) +
  (if clichePhrase sentence then 1 else 0) +
  (if absoluteStatement sentence then 1 else 0)

theorem redFlags_filter_length (sentence : List Char) :
    ((redFlags sentence).filter id).length = redFlagCount sentence := by
  unfold redFlags redFlagCount
  cases h1 : decide (sentence.length > 50) <;>
  cases h2 : decide (sentence.length < 10) <;>
  cases h3 : vagueLanguage sentence <;>
  cases h4 : clichePhrase sentence <;>
  cases h5 : absoluteStatement sentence <;>
  · simp_all [List.filter]
    try split_ifs <;> omega

theorem needsModification_iff (sentence : List Char) :
    needsModification sentence = true ↔ 2 ≤ redFlagCount sentence := by
  rw [needsModification, redFlags_filter_length, decide_eq_true_eq]

theorem natRoundDiv_mono_left (a a' b : ℕ) (h : a ≤ a') :
    natRoundDiv a b ≤ natRoundDiv a' b :=
  Nat.div_le_div_right (by omega)

theorem Part002.evaluateContent_le_100 (text : List Char) :
    Part002.evaluateContent text ≤ 100 := by
  have h1 := scoreByKeywords_le_five text
    (["I", "my", "background", "experience", "grew up", "family"].map String.toList)
  have h2 := scoreByKeywords_le_five text
    (["study", "university", "degree", "major", "course", "project"].map String.toList)
  have h3 := scoreByKeywords_le_five text
    (["goal", "career", "future", "aspire", "aim", "plan"].map String.toList)
  have h4 := scoreByKeywords_le_five text
    (["program", "school", "university", "faculty", "research", "choose"].map String.toList)
  have h5 := scoreByKeywords_le_five text
    (["unique", "different", "special", "distinguish", "stand out"].map String.toList)
  have h6 := scoreByKeywords_le_five text
    (["example", "instance", "specifically", "particular", "case"].map String.toList)
  show natRoundDiv
      ((0 + hasPersonalBackground text + hasEducationalExperience text + hasCareerGoals text
          + hasSchoolChoice text + hasUniqueness text + hasSpecificExamples text) * 100)
      (6 * 5) ≤ 100
  refine le_trans (natRoundDiv_mono_left _ 3000 _ ?_) (by decide)
  unfold hasPersonalBackground hasEducationalExperience hasCareerGoals hasSchoolChoice
    hasUniqueness hasSpecificExamples
  omega

theorem Part002.evaluateNarrative_le_100 (text : List Char) :
    Part002.evaluateNarrative text ≤ 100 := by
  have h1 := scoreByKeywords_le_five (firstParagraph text)
    (["question", "quote", "anecdote", "statistic"].map String.toList)
  have h2 := scoreByKeywords_le_five text
    (["however", "therefore", "moreover", "consequently", "additionally"].map String.toList)
  have h3 := scoreByKeywords_le_five text
    (["challenge", "problem", "obstacle", "overcome", "solve", "resolution"].map String.toList)
  have h4 := scoreByKeywords_le_five text
    (["because", "reason", "impact", "result", "learn", "reflect"].map String.toList)
  have h5 := scoreByKeywords_le_five (lastParagraph text)
    (["conclusion", "therefore", "finally", "future", "contribute"].map String.toList)
  show natRoundDiv
      ((0 + hasStrongOpening text + hasCoherentStructure text + hasConflictResolution text
          + hasNarrativeDepth text + hasStrongClosing text) * 100)
      (5 * 5) ≤ 100
  refine le_trans (natRoundDiv_mono_left _ 2500 _ ?_) (by decide)
  unfold hasStrongOpening hasCoherentStructure hasConflictResolution hasNarrativeDepth
    hasStrongClosing
  omega

theorem Part002.evaluateLanguage_le_100 (sentences : List (List Char)) :
    Part002.evaluateLanguage sentences ≤ 100 := by
  have hs : ∀ s : ℕ, s ≤ 5 → natRoundDiv (s * 100) 5 ≤ 100 := by
    intro s h
    calc natRoundDiv (s * 100) 5 ≤ natRoundDiv 500 5 := natRoundDiv_mono_left _ _ _ (by omega)
      _ = 100 := rfl
  unfold Part002.evaluateLanguage
  apply hs
  split_ifs <;> omega

/-! ## The claims -/

/-- C2 (counterexample): the claim is false on the code.  For the input text
`"..."` the sentence segmentation yields zero sentences, yet the heuristic
language scorer returns 20 — the bottom step — not the top score 100: with
an empty list the percentage is `0/0 = NaN`, every threshold comparison is
false, and the chain falls through to step score 1, i.e. `1/5*100 = 20`. -/
theorem claim_C2_zero_sentences_counterexample :
    sentencesOf "...".toList = [] ∧
    Part002.evaluateLanguage (sentencesOf "...".toList) = 20 ∧
    ¬ Part002.evaluateLanguage (sentencesOf "...".toList) = 100 :=
  ⟨by decide, by decide, by decide⟩

/-- C2 (amended): for an input text whose sentence segmentation yields zero
sentences, the heuristic language scorer does not raise a division fault (it
is total), but the `NaN` percentage fails every threshold comparison, so it
returns the bottom step score 1 — 20 on the 0-100 scale — rather than the
top score; the language component of the `part_002` pipeline result is
likewise 20. -/
theorem claim_C2_zero_sentences (text : List Char) (h : sentencesOf text = []) :
    Part002.evaluateLanguage (sentencesOf text) = 20 ∧
    (Part002.evaluateText text).language = 20 := by
  have h1 : Part002.evaluateLanguage (sentencesOf text) = 20 := by rw [h]; decide
  exact ⟨h1, h1⟩

/-- Witness for C2: the text `"..."` segments to zero sentences and scores
20. -/
theorem claim_C2_zero_sentences_witness :
    Part002.evaluateLanguage (sentencesOf "...".toList) = 20 ∧
    (Part002.evaluateText "...".toList).language = 20 :=
  claim_C2_zero_sentences "...".toList (by decide)

/-- C3 (counterexample): the response parser does not clamp the extracted
score, so an LLM-parse DimensionResult can exceed 100: on the raw response
`"Score: 150/100\nFeedback: Too generous."` the parser extracts 150 and the
content dimension evaluator returns a result with score 150 > 100. -/
theorem claim_C3_score_range_counterexample :
    (parseEvaluationResponse "Score: 150/100\nFeedback: Too generous.".toList).score = 150 ∧
    100 < (ScriptJs.evaluateContent
      (some "Score: 150/100\nFeedback: Too generous.".toList)).score :=
  ⟨by decide, by decide⟩

/-- C3 (amended): every heuristic-mode dimension score is an integer in
[0,100] (scores are naturals, so nonnegative by construction), and so is the
heuristic pipeline's final score; the LLM-parse score is a nonnegative
integer but is not clamped above — `Score: 150/100` parses to 150. -/
theorem claim_C3_score_range (text : List Char) (sentences : List (List Char)) :
    Part002.evaluateContent text ≤ 100 ∧
    Part002.evaluateNarrative text ≤ 100 ∧
    Part002.evaluateLanguage sentences ≤ 100 ∧
    (Part002.evaluateText text).final_score ≤ 100 := by
  refine ⟨Part002.evaluateContent_le_100 text, Part002.evaluateNarrative_le_100 text,
    Part002.evaluateLanguage_le_100 sentences, ?_⟩
  have hc := Part002.evaluateContent_le_100 text
  have hn := Part002.evaluateNarrative_le_100 text
  have hl := Part002.evaluateLanguage_le_100 (sentencesOf text)
  show natRoundDiv
      (4 * Part002.evaluateContent text + 4 * Part002.evaluateNarrative text
        + 2 * Part002.evaluateLanguage (sentencesOf text)) 10 ≤ 100
  refine le_trans (natRoundDiv_mono_left _ 1000 _ (by omega)) (by decide)

/-- C4 (confirmed): the response parser is total by construction and
tolerant: `parse("Score: 85/100\nFeedback: Strong opening.")` yields
`{score: 85, feedback: "Strong opening."}`, and an input with no
`Score:`/`Feedback:` markers degrades to
`{score: 0, feedback: "No feedback available"}`. -/
theorem claim_C4_parser_tolerant :
    parseEvaluationResponse "Score: 85/100\nFeedback: Strong opening.".toList
      = ⟨85, "Strong opening.".toList⟩ ∧
    parseEvaluationResponse "garbage text with no markers".toList
      = ⟨0, "No feedback available".toList⟩ :=
  ⟨by decide, by decide⟩

/-- The spec's `scoreCriterion` formula, stated over exact rationals, equals
the exact-arithmetic embedding `scoreByKeywords` (a pure arithmetic identity;
the IEEE-double evaluation of the source is compared with this formula in the
C5 theorems below). -/
theorem scoreByKeywords_eq_formula (text : List Char)
    (keywords : List (List Char)) (hne : keywords ≠ []) :
    (scoreByKeywords text keywords : ℤ)
      = min 5 ⌈(matchCount text keywords : ℚ) * 5
          / ((⌈(keywords.length : ℚ) / 2⌉ : ℤ) : ℚ)⌉ := by
  have hlen : keywords.length ≠ 0 := by
    simpa [List.length_eq_zero] using hne
  have hhalf : natCeilDiv keywords.length 2 ≠ 0 := by
    unfold natCeilDiv; omega
  rw [show ((⌈(keywords.length : ℚ) / 2⌉ : ℤ)) = ((natCeilDiv keywords.length 2 : ℕ) : ℤ) by
    rw [natCeilDiv_cast _ 2 (by norm_num)]; norm_num]
  rw [scoreByKeywords]
  push_cast [Nat.cast_min]
  rw [natCeilDiv_cast _ _ hhalf]
  congr 1
  push_cast
  ring_nf

/-- Strict lexicographic comparison of character lists by code point (used
only to certify that the C5 counterexample keyword list, which is stored in
ascending order, has no duplicates). -/
def lexLt : List Char → List Char → Bool
  | [], [] => false
  | [], _ :: _ => true
  | _ :: _, [] => false
  | a :: as, b :: bs =>
    if a.toNat < b.toNat then true
    else if b.toNat < a.toNat then false
    else lexLt as bs

/-- Every adjacent pair of the list is strictly increasing under `lexLt`. -/
def lexChain : List (List Char) → Bool
  | [] => true
  | [_] => true
  | a :: b :: rest => lexLt a b && lexChain (b :: rest)

theorem lexLt_irrefl : ∀ x : List Char, lexLt x x = false
  | [] => rfl
  | a :: as => by
    show (if a.toNat < a.toNat then true
      else if a.toNat < a.toNat then false else lexLt as as) = false
    rw [if_neg (Nat.lt_irrefl _), if_neg (Nat.lt_irrefl _)]
    exact lexLt_irrefl as

theorem lexLt_cons_iff (a b : Char) (as bs : List Char) :
    lexLt (a :: as) (b :: bs) = true ↔
      a.toNat < b.toNat ∨ (a.toNat = b.toNat ∧ lexLt as bs = true) := by
  show (if a.toNat < b.toNat then true
    else if b.toNat < a.toNat then false else lexLt as bs) = true ↔ _
  split_ifs with h1 h2
  · simp [h1]
  · constructor
    · intro h; simp at h
    · intro h; rcases h with h | ⟨he, _⟩ <;> omega
  · constructor
    · intro h; exact Or.inr ⟨by omega, h⟩
    · intro h; rcases h with h | ⟨_, h⟩
      · omega
      · exact h

theorem lexLt_trans : ∀ x y z : List Char,
    lexLt x y = true → lexLt y z = true → lexLt x z = true := by
  intro x
  induction x with
  | nil =>
    intro y z hxy hyz
    cases y with
    | nil => exact Bool.noConfusion hxy
    | cons b bs =>
      cases z with
      | nil => exact Bool.noConfusion hyz
      | cons c cs => rfl
  | cons a as ih =>
    intro y z hxy hyz
    cases y with
    | nil => exact Bool.noConfusion hxy
    | cons b bs =>
      cases z with
      | nil => exact Bool.noConfusion hyz
      | cons c cs =>
        rw [lexLt_cons_iff] at hxy hyz ⊢
        rcases hxy with h1 | ⟨e1, h1⟩ <;> rcases hyz with h2 | ⟨e2, h2⟩
        · exact Or.inl (by omega)
        · exact Or.inl (by omega)
        · exact Or.inl (by omega)
        · exact Or.inr ⟨by omega, ih bs cs h1 h2⟩

theorem lexLt_ne (x y : List Char) (h : lexLt x y = true) : x ≠ y := by
  intro he
  rw [he, lexLt_irrefl] at h
  exact Bool.noConfusion h

theorem lexChain_lt_of_mem (a : List Char) (l : List (List Char)) :
    lexChain (a :: l) = true → ∀ b ∈ l, lexLt a b = true := by
  induction l generalizing a with
  | nil => intro _ b hb; cases hb
  | cons c cs ih =>
    intro h b hb
    have h1 : lexLt a c = true ∧ lexChain (c :: cs) = true := by
      have h' : (lexLt a c && lexChain (c :: cs)) = true := h
      simpa [Bool.and_eq_true] using h'
    rcases List.mem_cons.mp hb with rfl | hb'
    · exact h1.1
    · exact lexLt_trans a c b h1.1 (ih c h1.2 b hb')

/-- A list whose adjacent pairs strictly increase lexicographically has no
duplicates. -/
theorem lexChain_nodup : ∀ l : List (List Char), lexChain l = true → l.Nodup := by
  intro l
  induction l with
  | nil => intro _; exact List.nodup_nil
  | cons a l ih =>
    intro h
    have htail : lexChain l = true := by
      cases l with
      | nil => rfl
      | cons c cs =>
        have h' : (lexLt a c && lexChain (c :: cs)) = true := h
        have h2 : lexLt a c = true ∧ lexChain (c :: cs) = true := by
          simpa [Bool.and_eq_true] using h'
        exact h2.2
    refine List.nodup_cons.mpr ⟨?_, ih htail⟩
    intro hmem
    have hlt := lexChain_lt_of_mem a l h a hmem
    rw [lexLt_irrefl] at hlt
    exact Bool.noConfusion hlt

/-- Text for the C5 counterexample: 23 one-letter words. -/
def cexText : List Char := "a b c d e f g h i j k l m n o p q r s t u v w".toList

/-- A 909-element keyword set (stored in strictly ascending code-point order,
certified duplicate-free by `lexChain_nodup`): the 273 whole-word-aligned
segments of `cexText` other than `a`, `a b` and `a b c` — each matches
`cexText` as a whole word — together with 636 distinct six-letter words over
`x`, `y`, `z`, none of which occurs in `cexText`.  So 273 of the 909
keywords match, and `half = Math.ceil(909 / 2) = 455`. -/
def cexKeywords : List (List Char) :=
  (["a b c d", "a b c d e", "a b c d e f", "a b c d e f g", "a b c d e f g h",
   "a b c d e f g h i", "a b c d e f g h i j", "a b c d e f g h i j k", "a b c d e f g h i j k l",
   "a b c d e f g h i j k l m", "a b c d e f g h i j k l m n", "a b c d e f g h i j k l m n o",
   "a b c d e f g h i j k l m n o p", "a b c d e f g h i j k l m n o p q",
   "a b c d e f g h i j k l m n o p q r", "a b c d e f g h i j k l m n o p q r s",
   "a b c d e f g h i j k l m n o p q r s t", "a b c d e f g h i j k l m n o p q r s t u",
   "a b c d e f g h i j k l m n o p q r s t u v", "a b c d e f g h i j k l m n o p q r s t u v w",
   "b", "b c", "b c d", "b c d e", "b c d e f", "b c d e f g", "b c d e f g h", "b c d e f g h i",
   "b c d e f g h i j", "b c d e f g h i j k", "b c d e f g h i j k l", "b c d e f g h i j k l m",
   "b c d e f g h i j k l m n", "b c d e f g h i j k l m n o", "b c d e f g h i j k l m n o p",
   "b c d e f g h i j k l m n o p q", "b c d e f g h i j k l m n o p q r",
   "b c d e f g h i j k l m n o p q r s", "b c d e f g h i j k l m n o p q r s t",
   "b c d e f g h i j k l m n o p q r s t u", "b c d e f g h i j k l m n o p q r s t u v",
   "b c d e f g h i j k l m n o p q r s t u v w", "c", "c d", "c d e", "c d e f", "c d e f g",
   "c d e f g h", "c d e f g h i", "c d e f g h i j", "c d e f g h i j k", "c d e f g h i j k l",
   "c d e f g h i j k l m", "c d e f g h i j k l m n", "c d e f g h i j k l m n o",
   "c d e f g h i j k l m n o p", "c d e f g h i j k l m n o p q",
   "c d e f g h i j k l m n o p q r", "c d e f g h i j k l m n o p q r s",
   "c d e f g h i j k l m n o p q r s t", "c d e f g h i j k l m n o p q r s t u",
   "c d e f g h i j k l m n o p q r s t u v", "c d e f g h i j k l m n o p q r s t u v w", "d",
   "d e", "d e f", "d e f g", "d e f g h", "d e f g h i", "d e f g h i j", "d e f g h i j k",
   "d e f g h i j k l", "d e f g h i j k l m", "d e f g h i j k l m n", "d e f g h i j k l m n o",
   "d e f g h i j k l m n o p", "d e f g h i j k l m n o p q", "d e f g h i j k l m n o p q r",
   "d e f g h i j k l m n o p q r s", "d e f g h i j k l m n o p q r s t",
   "d e f g h i j k l m n o p q r s t u", "d e f g h i j k l m n o p q r s t u v",
   "d e f g h i j k l m n o p q r s t u v w", "e", "e f", "e f g", "e f g h", "e f g h i",
   "e f g h i j", "e f g h i j k", "e f g h i j k l", "e f g h i j k l m", "e f g h i j k l m n",
   "e f g h i j k l m n o", "e f g h i j k l m n o p", "e f g h i j k l m n o p q",
   "e f g h i j k l m n o p q r", "e f g h i j k l m n o p q r s",
   "e f g h i j k l m n o p q r s t", "e f g h i j k l m n o p q r s t u",
   "e f g h i j k l m n o p q r s t u v", "e f g h i j k l m n o p q r s t u v w", "f", "f g",
   "f g h", "f g h i", "f g h i j", "f g h i j k", "f g h i j k l", "f g h i j k l m",
   "f g h i j k l m n", "f g h i j k l m n o", "f g h i j k l m n o p", "f g h i j k l m n o p q",
   "f g h i j k l m n o p q r", "f g h i j k l m n o p q r s", "f g h i j k l m n o p q r s t",
   "f g h i j k l m n o p q r s t u", "f g h i j k l m n o p q r s t u v",
   "f g h i j k l m n o p q r s t u v w", "g", "g h", "g h i", "g h i j", "g h i j k",
   "g h i j k l", "g h i j k l m", "g h i j k l m n", "g h i j k l m n o", "g h i j k l m n o p",
   "g h i j k l m n o p q", "g h i j k l m n o p q r", "g h i j k l m n o p q r s",
   "g h i j k l m n o p q r s t", "g h i j k l m n o p q r s t u",
   "g h i j k l m n o p q r s t u v", "g h i j k l m n o p q r s t u v w", "h", "h i", "h i j",
   "h i j k", "h i j k l", "h i j k l m", "h i j k l m n", "h i j k l m n o", "h i j k l m n o p",
   "h i j k l m n o p q", "h i j k l m n o p q r", "h i j k l m n o p q r s",
   "h i j k l m n o p q r s t", "h i j k l m n o p q r s t u", "h i j k l m n o p q r s t u v",
   "h i j k l m n o p q r s t u v w", "i", "i j", "i j k", "i j k l", "i j k l m", "i j k l m n",
   "i j k l m n o", "i j k l m n o p", "i j k l m n o p q", "i j k l m n o p q r",
   "i j k l m n o p q r s", "i j k l m n o p q r s t", "i j k l m n o p q r s t u",
   "i j k l m n o p q r s t u v", "i j k l m n o p q r s t u v w", "j", "j k", "j k l", "j k l m",
   "j k l m n", "j k l m n o", "j k l m n o p", "j k l m n o p q", "j k l m n o p q r",
   "j k l m n o p q r s", "j k l m n o p q r s t", "j k l m n o p q r s t u",
   "j k l m n o p q r s t u v", "j k l m n o p q r s t u v w", "k", "k l", "k l m", "k l m n",
   "k l m n o", "k l m n o p", "k l m n o p q", "k l m n o p q r", "k l m n o p q r s",
   "k l m n o p q r s t", "k l m n o p q r s t u", "k l m n o p q r s t u v",
   "k l m n o p q r s t u v w", "l", "l m", "l m n", "l m n o", "l m n o p", "l m n o p q",
   "l m n o p q r", "l m n o p q r s", "l m n o p q r s t", "l m n o p q r s t u",
   "l m n o p q r s t u v", "l m n o p q r s t u v w", "m", "m n", "m n o", "m n o p",
   "m n o p q", "m n o p q r", "m n o p q r s", "m n o p q r s t", "m n o p q r s t u",
   "m n o p q r s t u v", "m n o p q r s t u v w", "n", "n o", "n o p", "n o p q", "n o p q r",
   "n o p q r s", "n o p q r s t", "n o p q r s t u", "n o p q r s t u v", "n o p q r s t u v w",
   "o", "o p", "o p q", "o p q r", "o p q r s", "o p q r s t", "o p q r s t u", "o p q r s t u v",
   "o p q r s t u v w", "p", "p q", "p q r", "p q r s", "p q r s t", "p q r s t u",
   "p q r s t u v", "p q r s t u v w", "q", "q r", "q r s", "q r s t", "q r s t u", "q r s t u v",
   "q r s t u v w", "r", "r s", "r s t", "r s t u", "r s t u v", "r s t u v w", "s", "s t",
   "s t u", "s t u v", "s t u v w", "t", "t u", "t u v", "t u v w", "u", "u v", "u v w", "v",
   "v w", "w", "xxxxxx", "xxxxxy", "xxxxxz", "xxxxyx", "xxxxyy", "xxxxyz", "xxxxzx", "xxxxzy",
   "xxxyxx", "xxxyxy", "xxxyxz", "xxxyyx", "xxxyyy", "xxxyyz", "xxxyzx", "xxxyzy", "xxxzxx",
   "xxxzxy", "xxxzxz", "xxxzyx", "xxxzyy", "xxxzyz", "xxxzzx", "xxxzzy", "xxyxxx", "xxyxxy",
   "xxyxxz", "xxyxyx", "xxyxyy", "xxyxyz", "xxyxzx", "xxyxzy", "xxyyxx", "xxyyxy", "xxyyxz",
   "xxyyyx", "xxyyyy", "xxyyyz", "xxyyzx", "xxyyzy", "xxyzxx", "xxyzxy", "xxyzxz", "xxyzyx",
   "xxyzyy", "xxyzyz", "xxyzzx", "xxyzzy", "xxzxxx", "xxzxxy", "xxzxxz", "xxzxyx", "xxzxyy",
   "xxzxyz", "xxzxzx", "xxzxzy", "xxzyxx", "xxzyxy", "xxzyxz", "xxzyyx", "xxzyyy", "xxzyyz",
   "xxzyzx", "xxzyzy", "xxzzxx", "xxzzxy", "xxzzxz", "xxzzyx", "xxzzyy", "xxzzzx", "xxzzzy",
   "xyxxxx", "xyxxxy", "xyxxxz", "xyxxyx", "xyxxyy", "xyxxyz", "xyxxzx", "xyxxzy", "xyxyxx",
   "xyxyxy", "xyxyxz", "xyxyyx", "xyxyyy", "xyxyyz", "xyxyzx", "xyxyzy", "xyxzxx", "xyxzxy",
   "xyxzxz", "xyxzyx", "xyxzyy", "xyxzyz", "xyxzzx", "xyxzzy", "xyyxxx", "xyyxxy", "xyyxxz",
   "xyyxyx", "xyyxyy", "xyyxyz", "xyyxzx", "xyyxzy", "xyyyxx", "xyyyxy", "xyyyxz", "xyyyyx",
   "xyyyyy", "xyyyyz", "xyyyzx", "xyyyzy", "xyyzxx", "xyyzxy", "xyyzxz", "xyyzyx", "xyyzyy",
   "xyyzyz", "xyyzzx", "xyyzzy", "xyzxxx", "xyzxxy", "xyzxxz", "xyzxyx", "xyzxyy", "xyzxyz",
   "xyzxzx", "xyzxzy", "xyzyxx", "xyzyxy", "xyzyxz", "xyzyyx", "xyzyyy", "xyzyyz", "xyzyzx",
   "xyzyzy", "xyzzxx", "xyzzxy", "xyzzxz", "xyzzyx", "xyzzyy", "xyzzzx", "xyzzzy", "xzxxxx",
   "xzxxxy", "xzxxxz", "xzxxyx", "xzxxyy", "xzxxyz", "xzxxzx", "xzxxzy", "xzxyxx", "xzxyxy",
   "xzxyxz", "xzxyyx", "xzxyyy", "xzxyyz", "xzxyzx", "xzxyzy", "xzxzxx", "xzxzxy", "xzxzxz",
   "xzxzyx", "xzxzyy", "xzxzyz", "xzxzzx", "xzxzzy", "xzyxxx", "xzyxxy", "xzyxxz", "xzyxyx",
   "xzyxyy", "xzyxyz", "xzyxzx", "xzyxzy", "xzyyxx", "xzyyxy", "xzyyxz", "xzyyyx", "xzyyyy",
   "xzyyyz", "xzyyzx", "xzyyzy", "xzyzxx", "xzyzxy", "xzyzxz", "xzyzyx", "xzyzyy", "xzyzzx",
   "xzyzzy", "xzzxxx", "xzzxxy", "xzzxxz", "xzzxyx", "xzzxyy", "xzzxyz", "xzzxzx", "xzzxzy",
   "xzzyxx", "xzzyxy", "xzzyxz", "xzzyyx", "xzzyyy", "xzzyyz", "xzzyzx", "xzzyzy", "xzzzxx",
   "xzzzxy", "xzzzxz", "xzzzyx", "xzzzyy", "xzzzzx", "xzzzzy", "yxxxxx", "yxxxxy", "yxxxxz",
   "yxxxyx", "yxxxyy", "yxxxyz", "yxxxzx", "yxxxzy", "yxxyxx", "yxxyxy", "yxxyxz", "yxxyyx",
   "yxxyyy", "yxxyyz", "yxxyzx", "yxxyzy", "yxxzxx", "yxxzxy", "yxxzxz", "yxxzyx", "yxxzyy",
   "yxxzyz", "yxxzzx", "yxxzzy", "yxyxxx", "yxyxxy", "yxyxxz", "yxyxyx", "yxyxyy", "yxyxyz",
   "yxyxzx", "yxyxzy", "yxyyxx", "yxyyxy", "yxyyxz", "yxyyyx", "yxyyyy", "yxyyyz", "yxyyzx",
   "yxyyzy", "yxyzxx", "yxyzxy", "yxyzxz", "yxyzyx", "yxyzyy", "yxyzyz", "yxyzzx", "yxyzzy",
   "yxzxxx", "yxzxxy", "yxzxxz", "yxzxyx", "yxzxyy", "yxzxyz", "yxzxzx", "yxzxzy", "yxzyxx",
   "yxzyxy", "yxzyxz", "yxzyyx", "yxzyyy", "yxzyyz", "yxzyzx", "yxzyzy", "yxzzxx", "yxzzxy",
   "yxzzxz", "yxzzyx", "yxzzyy", "yxzzzx", "yxzzzy", "yyxxxx", "yyxxxy", "yyxxxz", "yyxxyx",
   "yyxxyy", "yyxxyz", "yyxxzx", "yyxxzy", "yyxyxx", "yyxyxy", "yyxyxz", "yyxyyx", "yyxyyy",
   "yyxyyz", "yyxyzx", "yyxyzy", "yyxzxx", "yyxzxy", "yyxzxz", "yyxzyx", "yyxzyy", "yyxzyz",
   "yyxzzx", "yyxzzy", "yyyxxx", "yyyxxy", "yyyxxz", "yyyxyx", "yyyxyy", "yyyxyz", "yyyxzx",
   "yyyxzy", "yyyyxx", "yyyyxy", "yyyyxz", "yyyyyx", "yyyyyy", "yyyyyz", "yyyyzx", "yyyyzy",
   "yyyzxx", "yyyzxy", "yyyzxz", "yyyzyx", "yyyzyy", "yyyzyz", "yyyzzx", "yyyzzy", "yyzxxx",
   "yyzxxy", "yyzxxz", "yyzxyx", "yyzxyy", "yyzxyz", "yyzxzx", "yyzxzy", "yyzyxx", "yyzyxy",
   "yyzyxz", "yyzyyx", "yyzyyy", "yyzyyz", "yyzyzx", "yyzyzy", "yyzzxx", "yyzzxy", "yyzzxz",
   "yyzzyx", "yyzzyy", "yyzzzx", "yyzzzy", "yzxxxx", "yzxxxy", "yzxxxz", "yzxxyx", "yzxxyy",
   "yzxxyz", "yzxxzx", "yzxxzy", "yzxyxx", "yzxyxy", "yzxyxz", "yzxyyx", "yzxyyy", "yzxyyz",
   "yzxyzx", "yzxyzy", "yzxzxx", "yzxzxy", "yzxzxz", "yzxzyx", "yzxzyy", "yzxzyz", "yzxzzx",
   "yzxzzy", "yzyxxx", "yzyxxy", "yzyxxz", "yzyxyx", "yzyxyy", "yzyxyz", "yzyxzx", "yzyxzy",
   "yzyyxx", "yzyyxy", "yzyyxz", "yzyyyx", "yzyyyy", "yzyyyz", "yzyyzx", "yzyyzy", "yzyzxx",
   "yzyzxy", "yzyzxz", "yzyzyx", "yzyzyy", "yzyzzx", "yzyzzy", "yzzxxx", "yzzxxy", "yzzxxz",
   "yzzxyx", "yzzxyy", "yzzxyz", "yzzxzx", "yzzxzy", "yzzyxx", "yzzyxy", "yzzyxz", "yzzyyx",
   "yzzyyy", "yzzyyz", "yzzyzx", "yzzyzy", "yzzzxx", "yzzzxy", "yzzzxz", "yzzzyx", "yzzzyy",
   "yzzzzx", "yzzzzy", "zxxxxx", "zxxxxy", "zxxxxz", "zxxxyx", "zxxxyy", "zxxxyz", "zxxxzx",
   "zxxxzy", "zxxyxx", "zxxyxy", "zxxyxz", "zxxyyx", "zxxyyy", "zxxyyz", "zxxyzx", "zxxyzy",
   "zxxzxx", "zxxzxy", "zxxzxz", "zxxzyx", "zxxzyy", "zxxzyz", "zxxzzx", "zxxzzy", "zxyxxx",
   "zxyxxy", "zxyxxz", "zxyxyx", "zxyxyy", "zxyxyz", "zxyxzx", "zxyxzy", "zxyyxx", "zxyyxy",
   "zxyyxz", "zxyyyx", "zxyyyy", "zxyyyz", "zxyyzx", "zxyyzy", "zxyzxx", "zxyzxy", "zxyzxz",
   "zxyzyx", "zxyzyy", "zxyzyz", "zxyzzx", "zxyzzy", "zxzxxx", "zxzxxy", "zxzxxz", "zxzxyx",
   "zxzxyy", "zxzxyz", "zxzxzx", "zxzxzy", "zxzyxx", "zxzyxy", "zxzyxz", "zxzyyx", "zxzyyy",
   "zxzyyz", "zxzyzx", "zxzyzy", "zxzzxx", "zxzzxy", "zxzzxz", "zxzzyx", "zxzzyy", "zxzzzx",
   "zxzzzy", "zyxxxx", "zyxxxy", "zyxxxz", "zyxxyx", "zyxxyy", "zyxxyz", "zyxxzx", "zyxxzy",
   "zyxyxx", "zyxyxy", "zyxyxz", "zyxyyx", "zyxyyy", "zyxyyz", "zyxyzx", "zyxyzy", "zyxzxx",
   "zyxzxy", "zyxzxz", "zyxzyx", "zyxzyy", "zyxzyz", "zyxzzx", "zyxzzy", "zyyxxx", "zyyxxy",
   "zyyxxz", "zyyxyx", "zyyxyy", "zyyxyz", "zyyxzx", "zyyxzy", "zyyyxx", "zyyyxy", "zyyyxz",
   "zyyyyx", "zyyyyy", "zyyyyz", "zyyyzx", "zyyyzy", "zyyzxx", "zyyzxy", "zyyzxz", "zyyzyx",
   "zyyzyy", "zyyzyz", "zyyzzx", "zyyzzy", "zyzxxx", "zyzxxy", "zyzxxz", "zyzxyx", "zyzxyy",
   "zyzxyz", "zyzxzx", "zyzxzy", "zyzyxx", "zyzyxy", "zyzyxz", "zyzyyx", "zyzyyy", "zyzyyz",
   "zyzyzx", "zyzyzy", "zyzzxx", "zyzzxy", "zyzzxz", "zyzzyx", "zyzzyy", "zyzzzx", "zyzzzy",
   "zzxxxx", "zzxxxy", "zzxxxz", "zzxxyx", "zzxxyy", "zzxxyz", "zzxxzx", "zzxxzy", "zzxyxx",
   "zzxyxy", "zzxyxz", "zzxyyx", "zzxyyy", "zzxyyz", "zzxyzx", "zzxyzy", "zzxzxx", "zzxzxy",
   "zzxzxz", "zzxzyx", "zzxzyy", "zzxzyz", "zzxzzx", "zzxzzy", "zzyxxx", "zzyxxy", "zzyxxz",
   "zzyxyx", "zzyxyy", "zzyxyz", "zzyxzx", "zzyxzy", "zzyyxx", "zzyyxy", "zzyyxz", "zzyyyx",
   "zzyyyy", "zzyyyz", "zzyyzx", "zzyyzy", "zzyzxx", "zzyzxy", "zzyzxz", "zzyzyx", "zzyzyy",
   "zzyzzx", "zzyzzy", "zzzxxx", "zzzxxy", "zzzxxz", "zzzxyx", "zzzxyy", "zzzxyz", "zzzxzx",
   "zzzxzy", "zzzyxx", "zzzyxy", "zzzyxz", "zzzyyx", "zzzyyy", "zzzyyz", "zzzyzx", "zzzyzy",
   "zzzzxx", "zzzzxy", "zzzzxz", "zzzzyx", "zzzzyy", "zzzzzx", "zzzzzy"].map String.toList)

set_option maxRecDepth 1000000 in
/-- C5 (counterexample): the claim fails on the code for large keyword sets.
For the 909-element duplicate-free keyword set `cexKeywords` and the text
`cexText`, exactly 273 keywords match as whole words, and the source's
IEEE-double evaluation gives `Math.ceil(273 * (5/455)) =
Math.ceil(3.0000000000000004) = 4`, whereas the claimed formula
`min(5, ⌈273·5/455⌉) = min(5, ⌈3⌉)` gives 3: the program's score is not
equal to the claimed exact formula. -/
theorem claim_C5_scoreCriterion_formula_counterexample :
    cexKeywords ≠ [] ∧
    cexKeywords.Nodup ∧
    cexKeywords.length = 909 ∧
    matchCount cexText cexKeywords = 273 ∧
    scoreByKeywordsFP cexText cexKeywords = 4 ∧
    ¬ ((scoreByKeywordsFP cexText cexKeywords : ℤ)
        = min 5 ⌈(matchCount cexText cexKeywords : ℚ) * 5
            / ((⌈(cexKeywords.length : ℚ) / 2⌉ : ℤ) : ℚ)⌉) := by
  have hm : matchCount cexText cexKeywords = 273 := by decide
  have hl : cexKeywords.length = 909 := by decide
  have hfp : scoreByKeywordsFP cexText cexKeywords = 4 := by
    show fpScoreVal (matchCount cexText cexKeywords) cexKeywords.length = 4
    rw [hm, hl]; decide
  have hexact : scoreByKeywords cexText cexKeywords = 3 := by
    show min 5 (natCeilDiv (5 * matchCount cexText cexKeywords)
      (natCeilDiv cexKeywords.length 2)) = 3
    rw [hm, hl]; decide
  have hne : cexKeywords ≠ [] := by
    intro h
    rw [h] at hl
    exact absurd hl (by decide)
  refine ⟨hne, lexChain_nodup _ (by decide), hl, hm, hfp, ?_⟩
  rw [← scoreByKeywords_eq_formula cexText cexKeywords hne, hfp, hexact]
  decide

/-- C5 (amended): for every text and non-empty keyword set, the program's
`scoreByKeywords` — its arithmetic evaluated in IEEE-754 binary64, as the
source does — returns an integer in [0,5] (nonnegative by construction), and
for every keyword set of at most 6 keywords (every criteria list of the
repository has 4 to 6) it equals `min(5, ⌈matchCount * 5 / half⌉)` with
`half = ⌈|keywords| / 2⌉`, where `matchCount` counts the keywords matching as
whole words, case-insensitively, anywhere in the text; for very large
keyword sets the double rounding can exceed that exact formula (first at 909
keywords with 273 matches, scoring 4 instead of 3). -/
theorem claim_C5_scoreCriterion_formula (text : List Char)
    (keywords : List (List Char)) (hne : keywords ≠ []) :
    scoreByKeywordsFP text keywords ≤ 5 ∧
    (keywords.length ≤ 6 →
      (scoreByKeywordsFP text keywords : ℤ)
        = min 5 ⌈(matchCount text keywords : ℚ) * 5
            / ((⌈(keywords.length : ℚ) / 2⌉ : ℤ) : ℚ)⌉) := by
  constructor
  · exact fpScoreVal_le_five _ _
  · intro h6
    rw [scoreByKeywordsFP_eq_exact_of_small text keywords hne h6]
    exact scoreByKeywords_eq_formula text keywords hne

/-- Witness for C5: the six-keyword personal-background list is non-empty
and small, so on the text `"I grew up in a family"` (matching `I`, `grew up`,
`family`) the IEEE-evaluated score is 5, bounded by 5, and equal to the exact
formula. -/
theorem claim_C5_scoreCriterion_formula_witness :
    scoreByKeywordsFP "I grew up in a family".toList
        (["I", "my", "background", "experience", "grew up", "family"].map String.toList) = 5 ∧
    scoreByKeywordsFP "I grew up in a family".toList
        (["I", "my", "background", "experience", "grew up", "family"].map String.toList) ≤ 5 ∧
    (scoreByKeywordsFP "I grew up in a family".toList
        (["I", "my", "background", "experience", "grew up", "family"].map String.toList) : ℤ)
      = min 5 ⌈(matchCount "I grew up in a family".toList
            (["I", "my", "background", "experience", "grew up", "family"].map String.toList) : ℚ)
          * 5 / ((⌈((["I", "my", "background", "experience", "grew up", "family"].map
            String.toList).length : ℚ) / 2⌉ : ℤ) : ℚ)⌉ :=
  ⟨by decide,
   (claim_C5_scoreCriterion_formula "I grew up in a family".toList
      (["I", "my", "background", "experience", "grew up", "family"].map String.toList)
      (by decide)).1,
   (claim_C5_scoreCriterion_formula "I grew up in a family".toList
      (["I", "my", "background", "experience", "grew up", "family"].map String.toList)
      (by decide)).2 (by decide)⟩

/-- C6 (counterexample): the claim as stated is false.  Take the keyword set
`{dog, cat dog, bird}` and the text `"cat dog"`: the keyword `bird` does not
match, and extending the text to `"cat dogs bird"` (appending `"s bird"`)
makes `bird` newly match as a whole word — yet the criterion score drops
from 5 to 3, because the extension simultaneously destroys the whole-word
matches of both `dog` and `cat dog`. -/
theorem claim_C6_monotonicity_counterexample :
    testWholeWord "bird".toList "cat dog".toList = false ∧
    "cat dogs bird".toList = "cat dog".toList ++ "s bird".toList ∧
    testWholeWord "bird".toList "cat dogs bird".toList = true ∧
    scoreByKeywords "cat dogs bird".toList (["dog", "cat dog", "bird"].map String.toList)
      < scoreByKeywords "cat dog".toList (["dog", "cat dog", "bird"].map String.toList) :=
  ⟨by decide, by decide, by decide, by decide⟩

/-- C6 (amended): `scoreByKeywords` is monotone in the set of matched
keywords: whenever every keyword matching `text₁` still matches `text₂` (in
particular when a change to the text only adds keyword matches), the
criterion score does not decrease. -/
theorem claim_C6_monotonicity (text₁ text₂ : List Char) (keywords : List (List Char))
    (h : ∀ w ∈ keywords, testWholeWord w text₁ = true → testWholeWord w text₂ = true) :
    scoreByKeywords text₁ keywords ≤ scoreByKeywords text₂ keywords := by
  have hm : matchCount text₁ keywords ≤ matchCount text₂ keywords :=
    length_filter_mono _ _ _ h
  unfold scoreByKeywords natCeilDiv
  exact min_le_min (le_refl 5) (Nat.div_le_div_right (by omega))

/-- Witness for C6: adding a `dog` match to `"a cat"` does not decrease the
score for the keyword set `{cat, dog}`. -/
theorem claim_C6_monotonicity_witness :
    scoreByKeywords "a cat".toList (["cat", "dog"].map String.toList)
      ≤ scoreByKeywords "a cat and a dog".toList (["cat", "dog"].map String.toList) :=
  claim_C6_monotonicity _ _ _ (by decide)

/-- C9 (confirmed): `needsModification` counts a sentence exactly when at
least 2 of the five red flags hold; a sentence of length 60 containing the
whole words `really` and `always` is counted, and a 20-character sentence
with no vague token, no cliché pattern and no absolute-quantifier word is
not. -/
theorem claim_C9_needsModification (sentence : List Char) :
    (needsModification sentence = true ↔ 2 ≤ redFlagCount sentence) ∧
    (sentence.length = 60 → testWholeWord "really".toList sentence = true →
      testWholeWord "always".toList sentence = true →
      needsModification sentence = true) ∧
    (sentence.length = 20 → vagueLanguage sentence = false →
      clichePhrase sentence = false → absoluteStatement sentence = false →
      needsModification sentence = false) := by
  refine ⟨needsModification_iff sentence, ?_, ?_⟩
  · intro h60 hreally halways
    have hv : vagueLanguage sentence = true := by
      unfold vagueLanguage
      simp only [List.map_cons, List.map_nil, List.any_cons, List.any_nil,
        Bool.or_eq_true]
      exact Or.inr (Or.inl hreally)
    rw [needsModification_iff]
    unfold redFlagCount
    rw [if_pos (show sentence.length > 50 by omega),
      if_pos (show vagueLanguage sentence = true from hv)]
    split_ifs <;> omega
  · intro h20 hv hc ha
    have hcount : redFlagCount sentence = 0 := by
      unfold redFlagCount
      rw [if_neg (show ¬ sentence.length > 50 by omega),
        if_neg (show ¬ sentence.length < 10 by omega),
        if_neg (show ¬ vagueLanguage sentence = true by simp [hv]),
        if_neg (show ¬ clichePhrase sentence = true by simp [hc]),
        if_neg (show ¬ absoluteStatement sentence = true by simp [ha])]
    cases hmod : needsModification sentence with
    | false => rfl
    | true =>
      have h2 := (needsModification_iff sentence).mp hmod
      omega

/-- Witness for C9: the 60-character sentence
`"I really always enjoy working on hard projects in my groups."` is counted
as needing modification, and the 20-character sentence
`"He works with a plan"` is not. -/
theorem claim_C9_needsModification_witness :
    needsModification "I really always enjoy working on hard projects in my groups.".toList
      = true ∧
    needsModification "He works with a plan".toList = false :=
  ⟨(claim_C9_needsModification
      "I really always enjoy working on hard projects in my groups.".toList).2.1
      (by decide) (by decide) (by decide),
   (claim_C9_needsModification "He works with a plan".toList).2.2
      (by decide) (by decide) (by decide) (by decide)⟩

/-- C10 (confirmed): the `length > 50` and `length < 10` red flags are
mutually exclusive, so `needsModification` never fires on length alone: a
counted sentence always carries a vague-language token, a cliché pattern, or
an absolute-quantifier word. -/
theorem claim_C10_length_flags_exclusive (sentence : List Char) :
    ¬(sentence.length > 50 ∧ sentence.length < 10) ∧
    (needsModification sentence = true →
      vagueLanguage sentence = true ∨ clichePhrase sentence = true ∨
        absoluteStatement sentence = true) := by
  refine ⟨by omega, ?_⟩
  intro h
  have hcount := (needsModification_iff sentence).mp h
  by_contra hcon
  push_neg at hcon
  obtain ⟨h3, h4, h5⟩ := hcon
  simp only [Bool.not_eq_true] at h3 h4 h5
  rw [redFlagCount, if_neg (show ¬ vagueLanguage sentence = true by simp [h3]),
    if_neg (show ¬ clichePhrase sentence = true by simp [h4]),
    if_neg (show ¬ absoluteStatement sentence = true by simp [h5])] at hcount
  split_ifs at hcount <;> omega

/-- Witness for C10: `"We really always win"` needs modification (two
content flags), and indeed carries a vague or absolute token. -/
theorem claim_C10_length_flags_exclusive_witness :
    ¬("We really always win".toList.length > 50 ∧ "We really always win".toList.length < 10) ∧
    (vagueLanguage "We really always win".toList = true ∨
      clichePhrase "We really always win".toList = true ∨
      absoluteStatement "We really always win".toList = true) :=
  ⟨(claim_C10_length_flags_exclusive "We really always win".toList).1,
   (claim_C10_length_flags_exclusive "We really always win".toList).2 (by decide)⟩

/-- The `results` object of a sample run, as `script.js` hands it to
`generateModificationSuggestions`. -/
def sampleResults : ScriptJs.Results :=
  ⟨⟨70, "Add more personal detail.".toList⟩,
   ⟨80, "Improve transitions.".toList⟩,
   ⟨90, "Fix minor grammar slips.".toList⟩, 78⟩

/-- The prompt `generateModificationSuggestions` builds for the sample run. -/
def samplePrompt : List Char :=
  ScriptJs.suggestionPrompt "My essay.".toList sampleResults

set_option maxRecDepth 100000 in
/-- C7: the suggestion generator asks for a bulleted list and invokes the
generation capability once (returning the reply verbatim, with a fixed
fallback on failure), but the single instruction it builds does NOT report
the dimensions' scores and feedback strings: the template reads
`${scores.content}` (a `DimensionResult` object, printed `[object Object]`)
and `${scores.contentFeedback}` (an absent property, printed `undefined`), so
for a run with content 70/"Add more personal detail." the prompt contains
`[object Object]/100` and `undefined` and contains neither `70/100` nor the
feedback text. -/
theorem claim_C7_suggestion_prompt :
    containsStr "[object Object]/100".toList samplePrompt = true ∧
    containsStr "undefined".toList samplePrompt = true ∧
    containsStr "70/100".toList samplePrompt = false ∧
    containsStr "80/100".toList samplePrompt = false ∧
    containsStr "90/100".toList samplePrompt = false ∧
    containsStr "Add more personal detail.".toList samplePrompt = false ∧
    containsStr "Improve transitions.".toList samplePrompt = false ∧
    containsStr "bulleted list".toList samplePrompt = true ∧
    (∀ raw : List Char,
      ScriptJs.generateModificationSuggestions "My essay.".toList sampleResults (some raw)
        = raw) ∧
    ScriptJs.generateModificationSuggestions "My essay.".toList sampleResults none
      = "Unable to generate suggestions at this time.".toList :=
  ⟨by decide, by decide, by decide, by decide, by decide, by decide, by decide, by decide,
   fun _ => rfl, rfl⟩

/-- C8 (confirmed): a failed outbound call (modelled by `none`) is absorbed
inside each dimension evaluator, which returns
`{score: 0, feedback: "Error evaluating <dimension>. Please try again."}`
(the embedding is total, so no error propagates to the orchestrator), and in
a run whose Content call fails the Narrative and Language results are exactly
the ones their own responses produce. -/
theorem claim_C8_failure_isolation (text : List Char)
    (narrativeResponse languageResponse suggestionResponse : Option (List Char)) :
    ScriptJs.evaluateContent none
      = ⟨0, "Error evaluating content. Please try again.".toList⟩ ∧
    ScriptJs.evaluateNarrative none
      = ⟨0, "Error evaluating narrative. Please try again.".toList⟩ ∧
    ScriptJs.evaluateLanguage none
      = ⟨0, "Error evaluating language. Please try again.".toList⟩ ∧
    (ScriptJs.evaluateText text none narrativeResponse languageResponse
        suggestionResponse).content
      = ⟨0, "Error evaluating content. Please try again.".toList⟩ ∧
    (ScriptJs.evaluateText text none narrativeResponse languageResponse
        suggestionResponse).narrative
      = ScriptJs.evaluateNarrative narrativeResponse ∧
    (ScriptJs.evaluateText text none narrativeResponse languageResponse
        suggestionResponse).language
      = ScriptJs.evaluateLanguage languageResponse :=
  ⟨rfl, rfl, rfl, rfl, rfl, rfl⟩

end PaperEval

